import Mathlib

/-!
Verification of the multi-agent research Streamlit script
(`researchanalystbot.py`).

The development shallowly embeds the script's own logic:

* the dataset summarizer `create_data_analysis_context` (a pure function
  of a dataframe and a topic string), together with models of the pandas
  operations it invokes (`describe`, `isnull`, `head`, `corr`,
  `select_dtypes`);
* the per-rerun control flow of the Streamlit script (agent selection,
  CSV upload handling, the Run Research button handler) as a pure
  function from the widget state to a list of observable effects.

Machine floats are represented by exact integer fractions and float
formatting by a deterministic exact rendering: no claim below depends on
the decimal images pandas prints, only on which quantities are computed
and on the layout of the surrounding text.
-/

namespace ResearchAnalystBot

/-! ### String helpers (kernel-reducible models of Python string ops) -/

/-- Decimal digits of a natural number, most significant first; the first
argument is fuel (structural recursion), always called with fuel > n. -/
def natReprAux : Nat → Nat → List Char
  | 0, _ => []
  | fuel+1, n =>
    if n < 10 then [Char.ofNat (48 + n)]
    else natReprAux fuel (n / 10) ++ [Char.ofNat (48 + n % 10)]

/-- Decimal rendering of a natural number (model of Python `str(n)`). -/
def natRepr (n : Nat) : String := ⟨natReprAux (n+1) n⟩

/-- Decimal rendering of an integer (model of Python `str(i)`). -/
def intRepr : Int → String
  | .ofNat n => natRepr n
  | .negSucc n => "-" ++ natRepr (n+1)

/-- Interleave a separator between the strings of a list (model of
Python `sep.join(l)`). -/
def joinSep (sep : String) : List String → String
  | [] => ""
  | [s] => s
  | s :: rest => s ++ sep ++ joinSep sep rest

/-- Whether `pat` is a prefix of `l`. -/
def hasPrefB : List Char → List Char → Bool
  | [], _ => true
  | _ :: _, [] => false
  | a :: as, b :: bs => a == b && hasPrefB as bs

/-- Whether `pat` occurs as a contiguous sublist of the second list. -/
def hasSubAux (pat : List Char) : List Char → Bool
  | [] => hasPrefB pat []
  | b :: bs => hasPrefB pat (b :: bs) || hasSubAux pat bs

/-- Substring test: model of Python `pat in s`. -/
def strHasSub (s pat : String) : Bool := hasSubAux pat.data s.data

/-- Model of Python `s.lower()` (ASCII case folding). -/
def strLower (s : String) : String := ⟨s.data.map Char.toLower⟩

/-- Model of Python `s.strip()`: drop whitespace from both ends. -/
def strStrip (s : String) : String :=
  ⟨(((s.data.dropWhile Char.isWhitespace).reverse.dropWhile
      Char.isWhitespace).reverse)⟩

/-! ### Exact scalars (stand-ins for the floats pandas computes) -/

/-- An exact fraction standing in for a machine float.  All scalar values
produced by the model keep a positive denominator. -/
structure Scalar where
  num : Int
  den : Int
deriving DecidableEq, Repr

def Scalar.add (a b : Scalar) : Scalar := ⟨a.num * b.den + b.num * a.den, a.den * b.den⟩

def Scalar.sub (a b : Scalar) : Scalar := ⟨a.num * b.den - b.num * a.den, a.den * b.den⟩

def Scalar.mul (a b : Scalar) : Scalar := ⟨a.num * b.num, a.den * b.den⟩

/-- Divide by a positive count. -/
def Scalar.divNat (a : Scalar) (n : Nat) : Scalar := ⟨a.num, a.den * n⟩

/-- Order test, valid for positive denominators. -/
def Scalar.le (a b : Scalar) : Bool := a.num * b.den ≤ b.num * a.den

def Scalar.sum (l : List Scalar) : Scalar := l.foldl Scalar.add ⟨0, 1⟩

/-- Exact deterministic rendering of a scalar (abstraction of float
formatting: integers print like floats, other values print exactly). -/
def Scalar.repr (a : Scalar) : String :=
  if a.den = 1 then intRepr a.num ++ ".0"
  else intRepr a.num ++ "/" ++ intRepr a.den

/-- Insertion into a sorted list of scalars. -/
def insertScalar (x : Scalar) : List Scalar → List Scalar
  | [] => [x]
  | y :: ys => if Scalar.le x y then x :: y :: ys else y :: insertScalar x ys

/-- Insertion sort of scalars (model of the sorting done by quantile
computation). -/
def sortScalars : List Scalar → List Scalar
  | [] => []
  | x :: xs => insertScalar x (sortScalars xs)

/-! ### The dataframe model -/

/-- A cell of an in-memory dataset: a numeric value, a string, or a
missing value (`NaN`). -/
inductive Value where
  | num (q : Scalar)
  | str (s : String)
  | null
deriving DecidableEq, Repr

/-- Rendering of a cell, as in a pandas table. -/
def Value.render : Value → String
  | .num q => q.repr
  | .str s => s
  | .null => "NaN"

/-- The declared type of a column. -/
inductive Dtype where
  | float64
  | int64
  | object
deriving DecidableEq, Repr

/-- Python repr of a numpy dtype. -/
def Dtype.repr : Dtype → String
  | .float64 => "dtype('float64')"
  | .int64 => "dtype('int64')"
  | .object => "dtype('O')"

/-- A named, typed column of cells. -/
structure Column where
  name : String
  dtype : Dtype
  cells : List Value
deriving DecidableEq, Repr

/-- An in-memory tabular dataset: named columns over `nrows` rows. -/
structure DataFrame where
  cols : List Column
  nrows : Nat
deriving DecidableEq, Repr

/-- Whether a column is numeric (model of
`select_dtypes(include=['number'])` membership). -/
def Column.isNumeric (c : Column) : Bool :=
  match c.dtype with
  | .float64 => true
  | .int64 => true
  | .object => false

/-- The numeric columns of a dataframe, in order (model of
`df.select_dtypes(include=['number']).columns`). -/
def numericCols (df : DataFrame) : List Column :=
  df.cols.filter Column.isNumeric

/-- The numeric, non-missing values of a column. -/
def Column.numValues (c : Column) : List Scalar :=
  c.cells.filterMap fun v =>
    match v with
    | .num q => some q
    | _ => none

/-- The non-missing cells of a column. -/
def Column.presentCells (c : Column) : List Value :=
  c.cells.filter fun v => v ≠ Value.null

/-- Count of missing cells of a column (model of `df.isnull().sum()` for
one column). -/
def Column.nullCount (c : Column) : Nat :=
  (c.cells.filter fun v => v = Value.null).length

/-- Model of `df.empty`: true when either axis has length zero. -/
def dfIsEmpty (df : DataFrame) : Bool :=
  df.nrows = 0 || df.cols.length = 0

/-! ### Statistics rendering (model of `describe`, `head`, `corr`) -/

/-- Render an optional scalar, `NaN` when absent. -/
def renderOptScalar : Option Scalar → String
  | none => "NaN"
  | some q => q.repr

/-- Mean of a list of scalars, absent when the list is empty. -/
def meanScalar (l : List Scalar) : Option Scalar :=
  if l.length = 0 then none else some ((Scalar.sum l).divNat l.length)

/-- Sample variance (`ddof = 1`), absent for fewer than two values. -/
def varScalar (l : List Scalar) : Option Scalar :=
  match meanScalar l with
  | none => none
  | some m =>
    if l.length < 2 then none
    else some ((Scalar.sum (l.map fun x => Scalar.mul (Scalar.sub x m) (Scalar.sub x m))).divNat
      (l.length - 1))

/-- Standard deviation, rendered symbolically as the exact square root of
the sample variance (abstraction of the float `std`). -/
def stdRender (l : List Scalar) : String :=
  match varScalar l with
  | none => "NaN"
  | some v => "sqrt(" ++ v.repr ++ ")"

/-- Minimum of a list of scalars. -/
def minScalar (l : List Scalar) : Option Scalar :=
  match sortScalars l with
  | [] => none
  | x :: _ => some x

/-- Maximum of a list of scalars. -/
def maxScalar (l : List Scalar) : Option Scalar :=
  (sortScalars l).getLast?

/-- Linear-interpolation quantile at `k/4` over the sorted values, as
pandas computes quartiles. -/
def quartileScalar (l : List Scalar) (k : Nat) : Option Scalar :=
  let s := sortScalars l
  match s with
  | [] => none
  | _ :: _ =>
    let n := s.length
    let idx := k * (n - 1) / 4
    let rem := k * (n - 1) % 4
    let lo := s.getD idx ⟨0, 1⟩
    if rem = 0 then some lo
    else
      let hi := s.getD (idx + 1) ⟨0, 1⟩
      some (Scalar.add lo (Scalar.mul ⟨rem, 4⟩ (Scalar.sub hi lo)))

/-- One statistics row of the numeric `describe` table. -/
def describeStatRow (label : String) (cols : List Column) (f : Column → String) : String :=
  label ++ "  " ++ joinSep "  " (cols.map f)

/-- Model of `df.describe().to_string()` over numeric columns: the
count / mean / std / min / quartile / max table. -/
def describeNumericStr (cols : List Column) : String :=
  joinSep "\n"
    [joinSep "  " (cols.map Column.name),
     describeStatRow "count" cols (fun c => natRepr c.numValues.length),
     describeStatRow "mean" cols (fun c => renderOptScalar (meanScalar c.numValues)),
     describeStatRow "std" cols (fun c => stdRender c.numValues),
     describeStatRow "min" cols (fun c => renderOptScalar (minScalar c.numValues)),
     describeStatRow "25%" cols (fun c => renderOptScalar (quartileScalar c.numValues 1)),
     describeStatRow "50%" cols (fun c => renderOptScalar (quartileScalar c.numValues 2)),
     describeStatRow "75%" cols (fun c => renderOptScalar (quartileScalar c.numValues 3)),
     describeStatRow "max" cols (fun c => renderOptScalar (maxScalar c.numValues))]

/-- Most frequent non-missing cell of a column. -/
def mostFreq (c : Column) : Option Value :=
  (c.presentCells.dedup).foldl
    (fun best v =>
      match best with
      | none => some v
      | some b => if c.presentCells.count b < c.presentCells.count v then some v else best)
    none

/-- Model of `describe` over object columns: count / unique / top / freq. -/
def describeObjectStr (cols : List Column) : String :=
  joinSep "\n"
    [joinSep "  " (cols.map Column.name),
     describeStatRow "count" cols (fun c => natRepr c.presentCells.length),
     describeStatRow "unique" cols (fun c => natRepr c.presentCells.dedup.length),
     describeStatRow "top" cols (fun c =>
       match mostFreq c with
       | none => "NaN"
       | some v => v.render),
     describeStatRow "freq" cols (fun c =>
       match mostFreq c with
       | none => "NaN"
       | some v => natRepr (c.presentCells.count v))]

/-- Model of `df.describe().to_string()`: numeric columns are described
when any exist, otherwise all (object) columns are. -/
def describeStr (df : DataFrame) : String :=
  if (numericCols df).isEmpty then describeObjectStr df.cols
  else describeNumericStr (numericCols df)

/-- Model of `df.describe()` including its failure mode: pandas raises
`ValueError` on a dataframe without columns. -/
def describeExc (df : DataFrame) : Except String String :=
  if df.cols.isEmpty then .error "Cannot describe a DataFrame without columns"
  else .ok (describeStr df)

/-- One rendered row of the 10-row sample table. -/
def sampleRow (df : DataFrame) (i : Nat) : String :=
  natRepr i ++ "  " ++
    joinSep "  " (df.cols.map fun c => (c.cells.getD i Value.null).render)

/-- Model of `df.head(10).to_string()`. -/
def sampleData (df : DataFrame) : String :=
  joinSep "\n"
    (joinSep "  " (df.cols.map Column.name) ::
      (List.range (min 10 df.nrows)).map (sampleRow df))

/-- The values of two columns at rows where both are present and numeric
(pairwise-complete observations, as pandas `corr` uses). -/
def pairedVals (c1 c2 : Column) : List (Scalar × Scalar) :=
  (c1.cells.zip c2.cells).filterMap fun p =>
    match p with
    | (.num a, .num b) => some (a, b)
    | _ => none

/-- One entry of the correlation matrix, rendered exactly: the Pearson
correlation `cov/sqrt(varx*vary)` is kept in symbolic square-root form
(abstraction of its float image); the diagonal is `1.0`. -/
def corrEntry (c1 c2 : Column) : String :=
  if c1.name = c2.name then "1.0"
  else
    let l := pairedVals c1 c2
    match meanScalar (l.map Prod.fst), meanScalar (l.map Prod.snd) with
    | some mx, some my =>
      let cov := Scalar.sum (l.map fun p => Scalar.mul (Scalar.sub p.1 mx) (Scalar.sub p.2 my))
      let vx := Scalar.sum (l.map fun p => Scalar.mul (Scalar.sub p.1 mx) (Scalar.sub p.1 mx))
      let vy := Scalar.sum (l.map fun p => Scalar.mul (Scalar.sub p.2 my) (Scalar.sub p.2 my))
      if vx.num = 0 || vy.num = 0 then "NaN"
      else cov.repr ++ "/sqrt(" ++ (Scalar.mul vx vy).repr ++ ")"
    | _, _ => "NaN"

/-- Model of `df[numerical_cols].corr().to_string()`. -/
def corrMatrixStr (df : DataFrame) : String :=
  let ncols := numericCols df
  joinSep "\n"
    (joinSep "  " (ncols.map Column.name) ::
      ncols.map fun c =>
        c.name ++ "  " ++ joinSep "  " (ncols.map fun c2 => corrEntry c c2))

/-! ### The summarizer `create_data_analysis_context` -/

/-- The `shape_info` line. -/
def shapeInfo (df : DataFrame) : String :=
  "Dataset shape: " ++ natRepr df.nrows ++ " rows, " ++ natRepr df.cols.length ++ " columns"

/-- The `columns_info` line. -/
def columnsInfo (df : DataFrame) : String :=
  "Columns: " ++ joinSep ", " (df.cols.map Column.name)

/-- The `dtypes_info` line (Python dict repr of `df.dtypes`). -/
def dtypesInfo (df : DataFrame) : String :=
  "Data types: \x7b" ++
    joinSep ", " (df.cols.map fun c => "'" ++ c.name ++ "': " ++ c.dtype.repr) ++ "\x7d"

/-- The `missing_info` line (Python dict repr of `df.isnull().sum()`). -/
def missingInfo (df : DataFrame) : String :=
  "Missing values: \x7b" ++
    joinSep ", " (df.cols.map fun c => "'" ++ c.name ++ "': " ++ natRepr c.nullCount) ++ "\x7d"

/-- The fixed placeholder used when fewer than two numeric columns exist. -/
def corrPlaceholder : String :=
  "\n## Correlation Matrix\nNot enough numerical columns for correlation analysis."

/-- The `correlation_info` section. -/
def correlationInfo (df : DataFrame) : String :=
  if 1 < (numericCols df).length then
    "\n## Correlation Matrix\n" ++ corrMatrixStr df
  else corrPlaceholder

/-- The closing fixed text of the context. -/
def analysisTail : String :=
  "\n\nPlease provide comprehensive insights based on this data including:\n- Key trends and patterns\n- Statistical relationships\n- Data quality assessment\n- Anomalies or outliers\n- Actionable recommendations\n"

/-- The full context f-string of `create_data_analysis_context`. -/
def renderContext (df : DataFrame) (topic : String) (statsStr : String) : String :=
  "\n## Dataset Overview\n" ++ shapeInfo df ++ "\n" ++ columnsInfo df ++ "\n" ++
    dtypesInfo df ++ "\n" ++ missingInfo df ++ "\n\n" ++ "## Statistical Summary" ++ "\n" ++
    statsStr ++ "\n\n## Sample Data (First 10 rows)\n" ++ sampleData df ++ "\n" ++
    correlationInfo df ++ "\n\n## Analysis Request\nUser wants to analyze: " ++ topic ++
    analysisTail

/-- The body of the `try` block of `create_data_analysis_context`: the
first statement computes `df.describe()`, whose exception (on a
column-less dataframe) aborts the body. -/
def createBody (df : DataFrame) (topic : String) : Except String String :=
  match describeExc df with
  | .error e => .error e
  | .ok statsStr => .ok (renderContext df topic statsStr)

/-- Model of `create_data_analysis_context`: the `try`/`except` wrapper
around the body, converting any exception into a descriptive string. -/
def create_data_analysis_context (df : DataFrame) (topic : String) : String :=
  match createBody df topic with
  | .ok s => s
  | .error e => "Error analyzing data: " ++ e

/-! ### The Streamlit script's control flow

One Streamlit rerun executes the whole script top to bottom.  The model
is a pure function from the widget state (radio choice, file-upload
widget value, topic text, button state) and the external agent call's
outcome to the list of observable effects the rerun produces. -/

/-- The five dispatch targets. -/
inductive AgentId where
  | newsAnalyst
  | dataAnalyst
  | policyReviewer
  | innovationsScout
  | team
deriving DecidableEq, Repr

/-- The five radio options. -/
inductive Choice where
  | news
  | data
  | policy
  | innovations
  | allTeam
deriving DecidableEq, Repr

/-- The label of each radio option, exactly as the script declares them. -/
def choiceLabel : Choice → String
  | .news => "News Analyst"
  | .data => "Data Analyst"
  | .policy => "Policy Reviewer"
  | .innovations => "Innovations Scout"
  | .allTeam => "All Agents (Team)"

/-- The `if`/`elif` chain mapping the radio value to `selected_agent`. -/
def selectAgent (label : String) : AgentId :=
  if label = "News Analyst" then .newsAnalyst
  else if label = "Data Analyst" then .dataAnalyst
  else if label = "Policy Reviewer" then .policyReviewer
  else if label = "Innovations Scout" then .innovationsScout
  else .team

/-- An uploaded file: its name and the outcome of saving it and parsing
it with `pd.read_csv` (an external, deterministic operation). -/
structure UploadedFile where
  name : String
  parse : Except String DataFrame

/-- The observable effects of one rerun of the script. -/
inductive Effect where
  | pageConfig (title : String)
  | title (s : String)
  | sidebarHeader (s : String)
  | header (s : String)
  | downloadButton (fileName : String)
  | success (s : String)
  | info (s : String)
  | error (s : String)
  | warning (s : String)
  | expander (s : String)
  | markdown (s : String)
  | summarize (df : DataFrame) (topic : String)
  | agentRun (a : AgentId) (input : String)
  | stop
deriving DecidableEq, Repr

/-- The widget state a rerun sees, plus the external agent call's
behaviour: `runResult a input` is what `a.run(input)` would return — a
content-bearing (or content-less) response, or a raised exception. -/
structure UIState where
  agentChoice : Choice
  uploadedInput : Option UploadedFile
  topic : String
  runClicked : Bool
  runResult : AgentId → String → Except String (Option String)

/-- The CSV upload block (shown only for the Data Analyst choice): saves
and validates the file; on an exception it shows an error and resets the
`uploaded_file` variable to `None`; on an empty or column-less dataframe
it shows an error but keeps the variable set. -/
def uploadPhase (st : UIState) : Option UploadedFile × List Effect :=
  if st.agentChoice = Choice.data then
    let hdr := [Effect.header "📊 Data Upload", Effect.downloadButton "sample_air_quality.csv"]
    match st.uploadedInput with
    | none => (none, hdr)
    | some f =>
      match f.parse with
      | .error e => (none, hdr ++ [Effect.error ("❌ Error processing CSV file: " ++ e)])
      | .ok df =>
        if dfIsEmpty df then
          (some f, hdr ++ [Effect.error "❌ The CSV file contains no data rows."])
        else if df.cols.length = 0 then
          (some f, hdr ++ [Effect.error "❌ The CSV file has no columns."])
        else
          (some f, hdr ++
            [Effect.success ("✅ Successfully uploaded CSV with " ++ natRepr df.nrows ++
              " rows and " ++ natRepr df.cols.length ++ " columns"),
             Effect.info ("📁 File saved as: tmp/" ++ f.name),
             Effect.expander "📋 Data Preview"])
  else (none, [])

/-- The remediation hint shown for tool-validation failures. -/
def toolHint : String :=
  "💡 Tip: This might be a tool configuration issue. Try using a different agent."

/-- The remediation hint shown for rate-limit errors. -/
def rateHint : String :=
  "💡 Tip: Rate limit reached. Please wait a moment and try again."

/-- The `except` branch of the Run Research handler: the generic error
message plus the two pattern-matched remediation hints. -/
def excHandler (e : String) : List Effect :=
  Effect.error ("Error: " ++ e) ::
    (if strHasSub e "tool call validation failed" then
      [Effect.info toolHint]
    else if strHasSub (strLower e) "rate limit" then
      [Effect.info rateHint]
    else [])

/-- Rendering of a successful agent result: its markdown content, or a
warning when no content attribute is present. -/
def renderResult (res : Option String) : Effect :=
  match res with
  | some content => Effect.markdown content
  | none => Effect.warning "No content returned from the agent."

/-- One call of `selected_agent.run(input)` together with the rendering
of its outcome (the surrounding `try`/`except` included). -/
def dispatch (st : UIState) (a : AgentId) (input : String) : List Effect :=
  Effect.agentRun a input ::
    match st.runResult a input with
    | .ok res => [renderResult res]
    | .error e => excHandler e

/-- The `enhanced_topic` f-string built for the Data Analyst (the
literal indentation of the Python source block included). -/
def enhancedTopic (ctx topic : String) : String :=
  "\n                        " ++ ctx ++
    "\n                        \n                        Please provide a comprehensive analysis of this data focusing on the user's request: " ++
    topic ++ "\n                        "

/-- The Run Research button handler. -/
def runPhase (st : UIState) (uploaded : Option UploadedFile) : List Effect :=
  if st.runClicked then
    if strStrip st.topic ≠ "" then
      if st.agentChoice = Choice.data then
        match uploaded with
        | some f =>
          match f.parse with
          | .error e => excHandler e
          | .ok df =>
            Effect.summarize df st.topic ::
              dispatch st (selectAgent (choiceLabel st.agentChoice))
                (enhancedTopic (create_data_analysis_context df st.topic) st.topic)
        | none => [Effect.error "❌ Please upload a CSV file first for data analysis.", Effect.stop]
      else
        dispatch st (selectAgent (choiceLabel st.agentChoice)) st.topic
    else [Effect.warning "Please enter a topic first."]
  else []

/-- The `TypeError` CPython raises when `os.environ[...]` is assigned
`None` (the value of `os.getenv` for an unset variable). -/
def envKeyError : String := "str expected, not NoneType"

/-- The static UI rendered on every rerun before the upload block. -/
def staticFx : List Effect :=
  [Effect.pageConfig "Multi-Agent Research Tool",
   Effect.title "🤖 Multi-Agent Research Discussion Tool",
   Effect.sidebarHeader "Agent Selection"]

/-- One full rerun of the script: the startup environment assignment
(which raises when the GROQ key is absent), then the static UI, the
upload block, and the Run Research handler. -/
def script (groqKey : Option String) (st : UIState) : Except String (List Effect) :=
  match groqKey with
  | none => .error envKeyError
  | some _ => .ok (staticFx ++ (uploadPhase st).2 ++ runPhase st (uploadPhase st).1)

/-- The effect trace of a rerun that starts with the key present. -/
def effectsOf (k : String) (st : UIState) : List Effect :=
  match script (some k) st with
  | .ok l => l
  | .error _ => []

/-! ### In-order substring containment -/

/-- The patterns occur in the string, in the given order, on disjoint
segments from left to right. -/
def ContainsInOrder : String → List String → Prop
  | _, [] => True
  | s, p :: ps => ∃ pre rest, s.data = pre ++ p.data ++ rest ∧ ContainsInOrder ⟨rest⟩ ps

/-- String append is associative. -/
theorem strAppend_assoc (a b c : String) : (a ++ b) ++ c = a ++ (b ++ c) := by
  apply String.ext
  simp [String.data_append]

theorem containsInOrder_nil (s : String) : ContainsInOrder s [] := trivial

/-- A leading segment that is not a pattern may be skipped. -/
theorem containsInOrder_skip (a : String) {s : String} {ps : List String}
    (h : ContainsInOrder s ps) : ContainsInOrder (a ++ s) ps := by
  cases ps with
  | nil => trivial
  | cons p ps =>
    obtain ⟨pre, rest, h1, h2⟩ := h
    exact ⟨a.data ++ pre, rest, by simp [String.data_append, h1], h2⟩

/-- A leading segment that is the next pattern may be consumed. -/
theorem containsInOrder_take (p : String) {s : String} {ps : List String}
    (h : ContainsInOrder s ps) : ContainsInOrder (p ++ s) (p :: ps) := by
  refine ⟨[], s.data, by simp [String.data_append], ?_⟩
  cases s with
  | mk d => exact h

/-! ### Shared lemmas about the summarizer -/

/-- A dataframe with a numeric column has a column. -/
theorem cols_ne_nil_of_numericCols {df : DataFrame} (h : numericCols df ≠ []) :
    df.cols.isEmpty = false := by
  cases hc : df.cols with
  | nil => exact absurd (by simp [numericCols, hc]) h
  | cons _ _ => rfl

/-- On a dataframe with at least one column the summarizer takes its
success path and produces the full context. -/
theorem create_eq_renderContext (df : DataFrame) (topic : String)
    (h : df.cols.isEmpty = false) :
    create_data_analysis_context df topic = renderContext df topic (describeStr df) := by
  unfold create_data_analysis_context createBody describeExc
  simp [h]

/-- A one-row, one-numeric-column dataframe used to instantiate the
theorems below. -/
def testDf : DataFrame := ⟨[⟨"a", .float64, [.num ⟨1, 1⟩]⟩], 1⟩

/-- The column-less dataframe, on which `describe` raises. -/
def emptyDf : DataFrame := ⟨[], 0⟩

/-- C1: on a dataset with at least one row and at least one numeric
column, `create_data_analysis_context` returns the context text holding,
in fixed order, the shape line, the column list, the per-column types,
the per-column missing counts, the statistical-summary table, the
first-10-rows sample, the correlation section and the verbatim topic;
in particular the literal substrings "Dataset shape:" and
"Statistical Summary" and the topic occur, in that order. -/
theorem c1_context_structure (df : DataFrame) (topic : String)
    (_hrows : 1 ≤ df.nrows) (hnum : numericCols df ≠ []) :
    ContainsInOrder (create_data_analysis_context df topic)
      [shapeInfo df, columnsInfo df, dtypesInfo df, missingInfo df,
       "## Statistical Summary", describeStr df, sampleData df,
       correlationInfo df, topic] ∧
    ContainsInOrder (create_data_analysis_context df topic)
      ["Dataset shape:", "Statistical Summary", topic] := by
  have hcols := cols_ne_nil_of_numericCols hnum
  constructor
  · rw [create_eq_renderContext df topic hcols]
    unfold renderContext
    simp only [strAppend_assoc]
    apply containsInOrder_skip
    apply containsInOrder_take
    apply containsInOrder_skip
    apply containsInOrder_take
    apply containsInOrder_skip
    apply containsInOrder_take
    apply containsInOrder_skip
    apply containsInOrder_take
    apply containsInOrder_skip
    apply containsInOrder_take
    apply containsInOrder_skip
    apply containsInOrder_take
    apply containsInOrder_skip
    apply containsInOrder_take
    apply containsInOrder_skip
    apply containsInOrder_take
    apply containsInOrder_skip
    exact containsInOrder_take _ (containsInOrder_nil _)
  · rw [create_eq_renderContext df topic hcols]
    unfold renderContext shapeInfo
    rw [show ("Dataset shape: " : String) = "Dataset shape:" ++ " " from rfl,
      show ("## Statistical Summary" : String) = "## " ++ "Statistical Summary" from rfl]
    simp only [strAppend_assoc]
    apply containsInOrder_skip
    apply containsInOrder_take
    apply containsInOrder_skip
    apply containsInOrder_skip
    apply containsInOrder_skip
    apply containsInOrder_skip
    apply containsInOrder_skip
    apply containsInOrder_skip
    apply containsInOrder_skip
    apply containsInOrder_skip
    apply containsInOrder_skip
    apply containsInOrder_skip
    apply containsInOrder_skip
    apply containsInOrder_skip
    apply containsInOrder_skip
    apply containsInOrder_take
    apply containsInOrder_skip
    apply containsInOrder_skip
    apply containsInOrder_skip
    apply containsInOrder_skip
    apply containsInOrder_skip
    apply containsInOrder_skip
    apply containsInOrder_skip
    exact containsInOrder_take _ (containsInOrder_nil _)

/-- Witness for C1: the hypotheses hold at a concrete one-row,
one-numeric-column dataframe, and the theorem applies there. -/
theorem c1_context_structure_witness :
    (1 ≤ testDf.nrows ∧ numericCols testDf ≠ []) ∧
    (ContainsInOrder (create_data_analysis_context testDf "city air quality")
      [shapeInfo testDf, columnsInfo testDf, dtypesInfo testDf, missingInfo testDf,
       "## Statistical Summary", describeStr testDf, sampleData testDf,
       correlationInfo testDf, "city air quality"] ∧
    ContainsInOrder (create_data_analysis_context testDf "city air quality")
      ["Dataset shape:", "Statistical Summary", "city air quality"]) :=
  ⟨⟨by decide, by decide⟩,
    c1_context_structure testDf "city air quality" (by decide) (by decide)⟩

/-- C2 (amended): on a dataframe with at least one column the output
always embeds the correlation section, which is the rendered matrix
exactly when two or more numeric columns exist and the fixed placeholder
sentence otherwise; on the column-less dataframe the summarizer instead
returns the caught-error string (see the counterexample). -/
theorem c2_correlation_section (df : DataFrame) (topic : String)
    (h : df.cols.isEmpty = false) :
    (∃ a b, create_data_analysis_context df topic = a ++ (correlationInfo df ++ b)) ∧
    (1 < (numericCols df).length →
      correlationInfo df = "\n## Correlation Matrix\n" ++ corrMatrixStr df) ∧
    ((numericCols df).length ≤ 1 → correlationInfo df = corrPlaceholder) := by
  refine ⟨?_, ?_, ?_⟩
  · refine ⟨"\n## Dataset Overview\n" ++ shapeInfo df ++ "\n" ++ columnsInfo df ++ "\n" ++
      dtypesInfo df ++ "\n" ++ missingInfo df ++ "\n\n" ++ "## Statistical Summary" ++ "\n" ++
      describeStr df ++ "\n\n## Sample Data (First 10 rows)\n" ++ sampleData df ++ "\n",
      "\n\n## Analysis Request\nUser wants to analyze: " ++ topic ++ analysisTail, ?_⟩
    rw [create_eq_renderContext df topic h]
    unfold renderContext
    simp only [strAppend_assoc]
  · intro hlt
    unfold correlationInfo
    rw [if_pos hlt]
  · intro hle
    unfold correlationInfo
    rw [if_neg (by omega)]

/-- Counterexample for C2 as frozen: on the column-less dataframe (zero
numeric columns) the correlation section is omitted entirely — the
summarizer returns the caught-error string instead of any text
containing the correlation heading or placeholder. -/
theorem c2_correlation_counterexample :
    (numericCols emptyDf).length ≤ 1 ∧
    create_data_analysis_context emptyDf "air quality" =
      "Error analyzing data: Cannot describe a DataFrame without columns" ∧
    strHasSub (create_data_analysis_context emptyDf "air quality") "Correlation Matrix" = false := by
  refine ⟨by decide, by decide, by decide⟩

/-- Witness for C2 (amended) at the concrete one-column dataframe. -/
theorem c2_correlation_section_witness :
    testDf.cols.isEmpty = false ∧
    ((∃ a b, create_data_analysis_context testDf "t" = a ++ (correlationInfo testDf ++ b)) ∧
    (1 < (numericCols testDf).length →
      correlationInfo testDf = "\n## Correlation Matrix\n" ++ corrMatrixStr testDf) ∧
    ((numericCols testDf).length ≤ 1 → correlationInfo testDf = corrPlaceholder)) :=
  ⟨by decide, c2_correlation_section testDf "t" (by decide)⟩

/-- C4: any exception inside `create_data_analysis_context` is caught
and converted into the single descriptive string
`"Error analyzing data: <message>"`; the function itself is total, so no
exception propagates to the caller. -/
theorem c4_exceptions_caught (df : DataFrame) (topic : String) (e : String)
    (h : createBody df topic = .error e) :
    create_data_analysis_context df topic = "Error analyzing data: " ++ e := by
  unfold create_data_analysis_context
  rw [h]

/-- Witness for C4: the column-less dataframe makes the body raise, and
the result is the descriptive error string. -/
theorem c4_exceptions_caught_witness :
    createBody emptyDf "t" = .error "Cannot describe a DataFrame without columns" ∧
    create_data_analysis_context emptyDf "t" =
      "Error analyzing data: " ++ "Cannot describe a DataFrame without columns" :=
  ⟨rfl, c4_exceptions_caught emptyDf "t" "Cannot describe a DataFrame without columns" rfl⟩

/-- C8: the summarizer is a pure function of its inputs — two runs on
equal dataset and topic inputs return equal strings (side-effect freedom
holds by construction: the embedding is a function of the dataframe and
topic values only, and the dataframe is never rebound). -/
theorem c8_pure_deterministic (df1 df2 : DataFrame) (t1 t2 : String)
    (h1 : df1 = df2) (h2 : t1 = t2) :
    create_data_analysis_context df1 t1 = create_data_analysis_context df2 t2 := by
  rw [h1, h2]

/-- Witness for C8 at a concrete dataframe and topic. -/
theorem c8_pure_deterministic_witness :
    create_data_analysis_context testDf "x" = create_data_analysis_context testDf "x" :=
  c8_pure_deterministic testDf testDf "x" "x" rfl rfl

/-! ### Shared lemmas about the script's effect trace -/

/-- Effects that neither run an agent, nor invoke the summarizer, nor
show the warning / stop of the Run Research handler. -/
def benignEffect : Effect → Bool
  | .agentRun _ _ => false
  | .warning _ => false
  | .summarize _ _ => false
  | .stop => false
  | _ => true

/-- The upload block emits only benign effects. -/
theorem uploadPhase_benign (st : UIState) :
    ∀ e ∈ (uploadPhase st).2, benignEffect e = true := by
  intro e he
  unfold uploadPhase at he
  by_cases hch : st.agentChoice = Choice.data
  · rw [if_pos hch] at he
    rcases hu : st.uploadedInput with _ | f
    · rw [hu] at he
      dsimp only at he
      fin_cases he <;> rfl
    · rw [hu] at he
      dsimp only at he
      rcases hp : f.parse with e' | df
      · rw [hp] at he
        dsimp only at he
        fin_cases he <;> rfl
      · rw [hp] at he
        dsimp only at he
        by_cases h1 : dfIsEmpty df = true
        · rw [if_pos h1] at he
          fin_cases he <;> rfl
        · rw [if_neg h1] at he
          by_cases h2 : df.cols.length = 0
          · rw [if_pos h2] at he
            fin_cases he <;> rfl
          · rw [if_neg h2] at he
            fin_cases he <;> rfl
  · rw [if_neg hch] at he
    cases he

/-- No agent run is emitted by the `except` handler. -/
theorem agentRun_not_mem_excHandler {e : String} {a : AgentId} {i : String} :
    Effect.agentRun a i ∉ excHandler e := by
  unfold excHandler
  intro h
  rw [List.mem_cons] at h
  rcases h with h | h
  · simp at h
  · split at h <;> simp at h

/-- An agent-run effect inside a dispatch names the dispatched agent and
its input. -/
theorem agentRun_mem_dispatch {st : UIState} {a b : AgentId} {input i : String}
    (h : Effect.agentRun b i ∈ dispatch st a input) : b = a ∧ i = input := by
  unfold dispatch at h
  rw [List.mem_cons] at h
  rcases h with h | h
  · simpa using h
  · rcases hr : st.runResult a input with e | res <;> rw [hr] at h
    · exact absurd h agentRun_not_mem_excHandler
    · rcases res with _ | c <;> simp [renderResult] at h

/-- An agent-run effect of the Run Research handler targets exactly the
agent selected from the radio label. -/
theorem agentRun_mem_runPhase {st : UIState} {up : Option UploadedFile}
    {a : AgentId} {i : String} (h : Effect.agentRun a i ∈ runPhase st up) :
    a = selectAgent (choiceLabel st.agentChoice) := by
  unfold runPhase at h
  split at h
  · split at h
    · split at h
      · rcases up with _ | f
        · simp at h
        · dsimp only at h
          rcases hp : f.parse with e | df <;> rw [hp] at h <;> dsimp only at h
          · exact absurd h agentRun_not_mem_excHandler
          · rw [List.mem_cons] at h
            rcases h with h | h
            · simp at h
            · exact (agentRun_mem_dispatch h).1
      · exact (agentRun_mem_dispatch h).1
    · simp at h
  · cases h

/-- C10: with the GROQ key absent from the environment, the startup
assignment raises before any UI effect: the whole rerun fails with the
`TypeError` text, and no effect trace is produced. -/
theorem c10_missing_key_fails_at_startup (st : UIState) :
    script none st = .error envKeyError ∧ ∀ effs, script none st ≠ .ok effs :=
  ⟨rfl, fun _ h => Except.noConfusion h⟩

/-- C5: an exception raised by the agent `run()` call is caught and
rendered as the error message, the tool-validation hint appears exactly
when the exception text contains "tool call validation failed", the
rate-limit hint exactly when it does not and the lowercased text
contains "rate limit", and the script never crashes: with the key
present every rerun produces an effect trace. -/
theorem c5_dispatch_exception_handling (st : UIState) (a : AgentId) (input : String)
    (e : String) (h : st.runResult a input = .error e) :
    Effect.error ("Error: " ++ e) ∈ dispatch st a input ∧
    (Effect.info toolHint ∈ dispatch st a input ↔
      strHasSub e "tool call validation failed" = true) ∧
    (Effect.info rateHint ∈ dispatch st a input ↔
      (strHasSub e "tool call validation failed" = false ∧
        strHasSub (strLower e) "rate limit" = true)) ∧
    (∀ (k : String) (st2 : UIState), ∃ effs, script (some k) st2 = .ok effs) := by
  have hne : toolHint ≠ rateHint := by decide
  unfold dispatch
  rw [h]
  dsimp only
  unfold excHandler
  refine ⟨by simp, ?_, ?_, fun k st2 => ⟨_, rfl⟩⟩
  · cases h1 : strHasSub e "tool call validation failed"
    · rw [if_neg (by simp [h1])]
      cases h2 : strHasSub (strLower e) "rate limit"
      · rw [if_neg (by simp [h2])]
        simp
      · rw [if_pos (by simp [h2])]
        simp [hne]
    · rw [if_pos (by simp [h1])]
      simp
  · cases h1 : strHasSub e "tool call validation failed"
    · rw [if_neg (by simp [h1])]
      cases h2 : strHasSub (strLower e) "rate limit"
      · rw [if_neg (by simp [h2])]
        simp
      · rw [if_pos (by simp [h2])]
        simp
    · rw [if_pos (by simp [h1])]
      simp [Ne.symm hne]

/-- Witness for C5: a concrete state whose agent call raises a rate-limit
exception. -/
def c5state : UIState :=
  ⟨Choice.news, none, "urban trees", true, fun _ _ => .error "Rate Limit reached for model"⟩

/-- Witness for C5, applying the theorem at the concrete failing state. -/
theorem c5_dispatch_exception_handling_witness :
    Effect.error ("Error: " ++ "Rate Limit reached for model") ∈
      dispatch c5state AgentId.newsAnalyst "urban trees" ∧
    (Effect.info toolHint ∈ dispatch c5state AgentId.newsAnalyst "urban trees" ↔
      strHasSub "Rate Limit reached for model" "tool call validation failed" = true) ∧
    (Effect.info rateHint ∈ dispatch c5state AgentId.newsAnalyst "urban trees" ↔
      (strHasSub "Rate Limit reached for model" "tool call validation failed" = false ∧
        strHasSub (strLower "Rate Limit reached for model") "rate limit" = true)) ∧
    (∀ (k : String) (st2 : UIState), ∃ effs, script (some k) st2 = .ok effs) :=
  c5_dispatch_exception_handling c5state AgentId.newsAnalyst "urban trees"
    "Rate Limit reached for model" rfl

/-- The effect trace always splits into the static UI, the upload block
and the Run Research handler. -/
theorem effectsOf_eq (k : String) (st : UIState) :
    effectsOf k st = staticFx ++ (uploadPhase st).2 ++ runPhase st (uploadPhase st).1 := rfl

/-- The static UI emits only benign effects. -/
theorem staticFx_benign : ∀ e ∈ staticFx, benignEffect e = true := by
  intro e he
  fin_cases he <;> rfl

/-- The agent each radio choice is documented to dispatch. -/
def expectedAgent : Choice → AgentId
  | .news => .newsAnalyst
  | .data => .dataAnalyst
  | .policy => .policyReviewer
  | .innovations => .innovationsScout
  | .allTeam => .team

/-- C6: the choice-to-agent mapping is total over the five radio options
— each individual label selects exactly the agent of that name and the
fifth label selects the team — and on any rerun every dispatched agent
run targets exactly the agent selected by the current choice. -/
theorem c6_choice_dispatch_total :
    (∀ c : Choice, selectAgent (choiceLabel c) = expectedAgent c) ∧
    (∀ (k : String) (st : UIState) (a : AgentId) (input : String),
      Effect.agentRun a input ∈ effectsOf k st → a = expectedAgent st.agentChoice) := by
  constructor
  · intro c
    cases c <;> decide
  · intro k st a input h
    rw [effectsOf_eq, List.mem_append, List.mem_append] at h
    rcases h with (h | h) | h
    · have := staticFx_benign _ h
      simp [benignEffect] at this
    · have := uploadPhase_benign st _ h
      simp [benignEffect] at this
    · have ha := agentRun_mem_runPhase h
      rw [ha]
      rcases st with ⟨choice, up, topic, clicked, runRes⟩
      cases choice <;> dsimp only <;> decide

/-- Witness for C6: at a concrete state running the News Analyst, the
dispatched agent is the one the choice names. -/
theorem c6_choice_dispatch_total_witness :
    AgentId.newsAnalyst = expectedAgent Choice.news :=
  c6_choice_dispatch_total.2 "key"
    ⟨Choice.news, none, "hello", true, fun _ _ => .ok (some "res")⟩
    AgentId.newsAnalyst "hello" (by decide)

/-- C7: with the Run button clicked, a whitespace-only topic yields the
inline warning and no agent run, and a present topic with the Data
Analyst choice but no uploaded file yields the inline error (and stop)
and no agent run. -/
theorem c7_missing_inputs_block_run (k : String) (st : UIState)
    (hr : st.runClicked = true) :
    (strStrip st.topic = "" →
      Effect.warning "Please enter a topic first." ∈ effectsOf k st ∧
      ∀ a i, Effect.agentRun a i ∉ effectsOf k st) ∧
    (strStrip st.topic ≠ "" → st.agentChoice = Choice.data → st.uploadedInput = none →
      Effect.error "❌ Please upload a CSV file first for data analysis." ∈ effectsOf k st ∧
      Effect.stop ∈ effectsOf k st ∧
      ∀ a i, Effect.agentRun a i ∉ effectsOf k st) := by
  constructor
  · intro ht
    have hrun : runPhase st (uploadPhase st).1 = [Effect.warning "Please enter a topic first."] := by
      unfold runPhase
      rw [hr, if_pos rfl, if_neg (by simp [ht])]
    constructor
    · rw [effectsOf_eq, hrun]
      simp
    · intro a i hmem
      rw [effectsOf_eq, hrun, List.mem_append, List.mem_append] at hmem
      rcases hmem with (h | h) | h
      · have := staticFx_benign _ h
        simp [benignEffect] at this
      · have := uploadPhase_benign st _ h
        simp [benignEffect] at this
      · simp at h
  · intro ht hc hu
    have hup : uploadPhase st =
        (none, [Effect.header "📊 Data Upload",
                Effect.downloadButton "sample_air_quality.csv"]) := by
      unfold uploadPhase
      rw [if_pos hc, hu]
    have hrun : runPhase st (uploadPhase st).1 =
        [Effect.error "❌ Please upload a CSV file first for data analysis.", Effect.stop] := by
      unfold runPhase
      rw [hr, if_pos rfl, if_pos ht, if_pos hc, hup]
    rw [effectsOf_eq, hrun, hup]
    refine ⟨by simp, by simp, ?_⟩
    intro a i hmem
    simp [staticFx] at hmem

/-- A clicked state whose topic is whitespace only. -/
def c7state : UIState :=
  ⟨Choice.news, none, "   ", true, fun _ _ => .ok (some "res")⟩

/-- Witness for C7: a concrete clicked state with an empty topic shows
the warning and runs no agent. -/
theorem c7_missing_inputs_block_run_witness :
    Effect.warning "Please enter a topic first." ∈ effectsOf "key" c7state ∧
    ∀ a i, Effect.agentRun a i ∉ effectsOf "key" c7state :=
  (c7_missing_inputs_block_run "key" c7state rfl).1 (by decide)

/-- C9: when saving or parsing the upload raises, the handler shows the
processing error and resets the upload variable, so a click of Run
Research takes the missing-upload path: the upload-first error appears
and neither the summarizer nor any agent run is invoked. -/
theorem c9_upload_failure_resets (k : String) (st : UIState) (f : UploadedFile) (e : String)
    (hc : st.agentChoice = Choice.data) (hu : st.uploadedInput = some f)
    (hp : f.parse = .error e) (hr : st.runClicked = true) (ht : strStrip st.topic ≠ "") :
    Effect.error ("❌ Error processing CSV file: " ++ e) ∈ effectsOf k st ∧
    Effect.error "❌ Please upload a CSV file first for data analysis." ∈ effectsOf k st ∧
    (∀ df t, Effect.summarize df t ∉ effectsOf k st) ∧
    (∀ a i, Effect.agentRun a i ∉ effectsOf k st) := by
  have hup : uploadPhase st =
      (none, [Effect.header "📊 Data Upload",
              Effect.downloadButton "sample_air_quality.csv",
              Effect.error ("❌ Error processing CSV file: " ++ e)]) := by
    unfold uploadPhase
    rw [if_pos hc, hu]
    dsimp only
    rw [hp]
    rfl
  have hrun : runPhase st (uploadPhase st).1 =
      [Effect.error "❌ Please upload a CSV file first for data analysis.", Effect.stop] := by
    unfold runPhase
    rw [hr, if_pos rfl, if_pos ht, if_pos hc, hup]
  rw [effectsOf_eq, hrun, hup]
  refine ⟨by simp, by simp, ?_, ?_⟩
  · intro df t hmem
    simp [staticFx] at hmem
  · intro a i hmem
    simp [staticFx] at hmem

/-- A clicked Data Analyst state whose upload fails to parse. -/
def c9state : UIState :=
  ⟨Choice.data, some ⟨"data.csv", .error "bad csv"⟩, "analyze", true,
    fun _ _ => .ok (some "res")⟩

/-- Witness for C9: a concrete state whose upload fails to parse. -/
theorem c9_upload_failure_resets_witness :
    Effect.error ("❌ Error processing CSV file: " ++ "bad csv") ∈ effectsOf "key" c9state ∧
    Effect.error "❌ Please upload a CSV file first for data analysis." ∈ effectsOf "key" c9state ∧
    (∀ df t, Effect.summarize df t ∉ effectsOf "key" c9state) ∧
    (∀ a i, Effect.agentRun a i ∉ effectsOf "key" c9state) :=
  c9_upload_failure_resets "key" c9state ⟨"data.csv", .error "bad csv"⟩ "bad csv"
    rfl rfl rfl rfl (by decide)

/-- A dataframe read from a header-only CSV: one column, zero rows. -/
def emptyRowsDf : DataFrame := ⟨[⟨"a", .float64, []⟩], 0⟩

/-- A clicked Data Analyst state whose upload parses to the empty
dataframe. -/
def c3state : UIState :=
  ⟨Choice.data, some ⟨"empty.csv", .ok emptyRowsDf⟩, "analyze the data", true,
    fun _ _ => .ok (some "res")⟩

/-- Counterexample for C3 as frozen: an uploaded dataset with zero rows
is flagged with an inline error at upload time, yet the same rerun still
reaches `create_data_analysis_context` on that empty dataset through the
Run Research path — the upload validation never resets the uploaded
file, so the summarizer is not protected from empty datasets. -/
theorem c3_counterexample :
    dfIsEmpty emptyRowsDf = true ∧
    Effect.error "❌ The CSV file contains no data rows." ∈ effectsOf "key" c3state ∧
    Effect.summarize emptyRowsDf "analyze the data" ∈ effectsOf "key" c3state :=
  ⟨rfl, by decide, by decide⟩

/-- C3 (amended): the UI controller shows an inline error for an empty
(zero-row or zero-column) uploaded dataset, but it does not block the
Run Research path: with the Data Analyst choice the summarizer is still
invoked on the empty dataset in the same rerun. -/
theorem c3_empty_dataset_reaches_summarizer (k : String) (st : UIState)
    (f : UploadedFile) (df : DataFrame)
    (hc : st.agentChoice = Choice.data) (hu : st.uploadedInput = some f)
    (hp : f.parse = .ok df) (he : dfIsEmpty df = true)
    (hr : st.runClicked = true) (ht : strStrip st.topic ≠ "") :
    Effect.error "❌ The CSV file contains no data rows." ∈ effectsOf k st ∧
    Effect.summarize df st.topic ∈ effectsOf k st := by
  have hup : uploadPhase st =
      (some f, [Effect.header "📊 Data Upload",
                Effect.downloadButton "sample_air_quality.csv",
                Effect.error "❌ The CSV file contains no data rows."]) := by
    unfold uploadPhase
    rw [if_pos hc, hu]
    dsimp only
    rw [hp]
    dsimp only
    rw [if_pos he]
    rfl
  have hrun : runPhase st (uploadPhase st).1 =
      Effect.summarize df st.topic ::
        dispatch st (selectAgent (choiceLabel st.agentChoice))
          (enhancedTopic (create_data_analysis_context df st.topic) st.topic) := by
    unfold runPhase
    rw [hr, if_pos rfl, if_pos ht, if_pos hc, hup]
    dsimp only
    rw [hp]
  rw [effectsOf_eq, hrun, hup]
  exact ⟨by simp, by simp⟩

/-- Witness for C3 (amended) at the concrete empty-dataset state. -/
theorem c3_empty_dataset_reaches_summarizer_witness :
    Effect.error "❌ The CSV file contains no data rows." ∈ effectsOf "key2" c3state ∧
    Effect.summarize emptyRowsDf "analyze the data" ∈ effectsOf "key2" c3state :=
  c3_empty_dataset_reaches_summarizer "key2" c3state ⟨"empty.csv", .ok emptyRowsDf⟩
    emptyRowsDf rfl rfl rfl rfl rfl (by decide)

end ResearchAnalystBot
